import Mathlib

/-!
Verification of the resilience/fallback layer of the ai_mock_interview
front-end: the Vapi voice-session guard (src/lib/vapi.sdk.ts), the
auth fallback flow (src/components/AuthForm.tsx), the Firebase admin
initialisers (src/firebase/admin.ts and the unnamed admin module), the
voice-call starter (src/components/Agent.tsx) and the clipboard helper
(copyToClipboard in the utils module).

Each definition is a shallow embedding of the corresponding JavaScript
function; JS objects that can be absent or non-string are modelled with
Option, thrown errors with Except, and the browser globals touched by the
guard (window.__VAPI_INSTANCE__, timers, dispatched events) with an
explicit state record threaded through small-step functions.
-/

deriving instance DecidableEq for Except

/-- Substring test on character lists: pat occurs contiguously in s. -/
def hasSub (pat : List Char) : List Char → Bool
  | [] => pat.isEmpty
  | c :: t => pat.isPrefixOf (c :: t) || hasSub pat t

/-- Case-sensitive substring containment for strings, the embedding of
JavaScript String.prototype.includes. -/
def strContains (s pat : String) : Bool := hasSub pat.toList s.toList

/-- A JavaScript error value as the guard sees it: either null/undefined,
or an object with an optional string message (none models a message that
is absent or not a string) and a string rendering (what String(error)
yields when the value is interpolated into a log line). -/
inductive ErrVal where
  | nullE : ErrVal
  | obj (message : Option String) (render : String) : ErrVal
deriving Repr, DecidableEq

/-- JS truthiness of an error value (`error && ...` guards). -/
def ErrVal.isTruthy : ErrVal → Bool
  | .nullE => false
  | .obj _ _ => true

/-- What String(error) yields when the value reaches a log line. -/
def ErrVal.render : ErrVal → String
  | .nullE => "null"
  | .obj _ r => r

/-- The two recognized session-termination phrases, from
src/lib/vapi.sdk.ts lines 81-82 and 129-130. -/
def meetingEndedPhrases : List String := ["Meeting has ended", "Meeting ended"]

/-- Whether a log line contains a recognized termination phrase
(vapi.sdk.ts lines 166-169 and the classifier conditions). -/
def phraseIn (s : String) : Bool :=
  strContains s "Meeting has ended" || strContains s "Meeting ended"

/-- The terminal-session classifier: the condition
`error && typeof error.message === "string" && (error.message.includes
("Meeting has ended") || error.message.includes("Meeting ended"))` shared
by the method-rejection interceptor (vapi.sdk.ts lines 78-83) and the
global handler (lines 126-131). -/
def isMeetingEnded : ErrVal → Bool
  | .nullE => false
  | .obj none _ => false
  | .obj (some m) _ => strContains m "Meeting has ended" || strContains m "Meeting ended"

/-- The interceptor's handling of a rejected method promise
(vapi.sdk.ts lines 44-66 for start, 73-103 for the other methods):
the start branch re-raises every rejection after best-effort cleanup,
any other method resolves silently on a terminal-session error and
re-raises otherwise. `.ok ()` models a silently resolved promise,
`.error e` a rejection delivered to the caller. -/
def wrappedMethodRejection (method : String) (e : ErrVal) : Except ErrVal Unit :=
  if method == "start" then .error e
  else if isMeetingEnded e then .ok () else .error e

example : isMeetingEnded (.obj (some "Error: Meeting has ended") "x") = true := by decide
example : isMeetingEnded (.obj (some "Meeting soon ended") "x") = false := by decide
example : isMeetingEnded (.obj (some "a Meeting ended b") "x") = true := by decide
example : isMeetingEnded (.obj (some "meeting has ended") "x") = false := by decide
/-- The browser-global state touched by the Daily.co error guard:
whether window.__VAPI_INSTANCE__ is set, whether that instance's stop()
throws (and with what error), and counters for the observable effects:
stop() invocations, dispatches of the custom vapi:meeting-ended event
(the broadcast), scheduled 1-second clears of the instance (from the
vapi:meeting-ended listener at vapi.sdk.ts lines 235-241), and cleanup
errors logged by the catch at lines 147-149. -/
structure VapiWorld where
  instanceLive : Bool
  stopFails : Option ErrVal
  stopCalls : Nat
  broadcasts : Nat
  pendingClears : Nat
  cleanupLogs : Nat
deriving Repr, DecidableEq

/-- The global handler window.__VAPI_DAILY_ERROR_HANDLER__
(vapi.sdk.ts lines 124-155), returning the updated world and the
handled flag. stop() and the event dispatch sit in one try block, so a
throwing stop() suppresses the dispatch and is logged via console.error;
since the module overrides console.error to re-invoke this very handler
when the logged line contains a termination phrase (lines 160-173), the
cleanup log may re-enter the handler, bounded here by fuel. -/
def dailyErrorHandler : Nat → ErrVal → VapiWorld → VapiWorld × Bool
  | _, .nullE, w => (w, false)
  | _, .obj none _, w => (w, false)
  | fuel, .obj (some m) _r, w =>
    if phraseIn m then
      if w.instanceLive then
        match w.stopFails with
        | some ce =>
          let line := "Error during Daily.co cleanup: " ++ ce.render
          let w1 := { w with stopCalls := w.stopCalls + 1, cleanupLogs := w.cleanupLogs + 1 }
          let w2 :=
            match fuel with
            | 0 => w1
            | fuel' + 1 =>
              if phraseIn line then (dailyErrorHandler fuel' (.obj (some line) line) w1).1
              else w1
          (w2, true)
        | none =>
          ({ w with stopCalls := w.stopCalls + 1, broadcasts := w.broadcasts + 1,
                    pendingClears := w.pendingClears + 1 }, true)
      else (w, true)
    else (w, false)

/-- The console.error override (vapi.sdk.ts lines 160-173): when the
joined log line contains a termination phrase, the handler is invoked
with a synthetic error object whose message is the whole line. -/
def consoleErrorHook (fuel : Nat) (line : String) (w : VapiWorld) : VapiWorld :=
  if phraseIn line then (dailyErrorHandler fuel (.obj (some line) line) w).1 else w

/-- The log line the wrapper prints when a wrapped method's promise
rejects (vapi.sdk.ts line 57 for start, line 75 for the rest), as the
console.error override joins it: prefix, then String(error). -/
def wrapperLogLine (method : String) (e : ErrVal) : String :=
  (if method == "start" then "Error in Vapi start method: "
   else "Error in Vapi method " ++ method ++ ": ") ++ e.render

/-- The observation points at which a termination error can reach the
guard: a wrapped method's promise rejecting (which only logs, then
resolves silently or re-raises — vapi.sdk.ts lines 56-57 and 74-103),
the global unhandledrejection listener (lines 176-181), the global error
listener (lines 184-189), and the firing of one scheduled 1-second clear
of window.__VAPI_INSTANCE__ (lines 238-240). -/
inductive VObs where
  | wrapperRejection (method : String) (e : ErrVal)
  | unhandledRejection (e : ErrVal)
  | errorEvent (e : ErrVal)
  | graceTimerFires

/-- One step of the guard's global state under an observation. The
wrapper's rejection handler touches the world only through its
console.error log line (its classification decides the promise outcome,
modelled separately by wrappedMethodRejection). -/
def vstep (fuel : Nat) : VObs → VapiWorld → VapiWorld
  | .wrapperRejection m e, w =>
    consoleErrorHook fuel (wrapperLogLine m e) w
  | .unhandledRejection e, w =>
    if e.isTruthy then (dailyErrorHandler fuel e w).1 else w
  | .errorEvent e, w =>
    if e.isTruthy then (dailyErrorHandler fuel e w).1 else w
  | .graceTimerFires, w =>
    if w.pendingClears > 0 then
      { w with pendingClears := w.pendingClears - 1, instanceLive := false }
    else w

/-- Run a list of observations in order. -/
def vrun (fuel : Nat) (obs : List VObs) (w : VapiWorld) : VapiWorld :=
  obs.foldl (fun acc o => vstep fuel o acc) w

/-- A live world whose stop() does not throw. -/
def liveWorld : VapiWorld :=
  { instanceLive := true, stopFails := none, stopCalls := 0, broadcasts := 0,
    pendingClears := 0, cleanupLogs := 0 }

/-- A meeting-ended Error as Daily.co raises it. -/
def mtgErr : ErrVal := .obj (some "Meeting has ended") "Error: Meeting has ended"

example : (vstep 5 (.unhandledRejection mtgErr) liveWorld).broadcasts = 1 := by rfl
example :
    (vrun 5 [.unhandledRejection mtgErr, .errorEvent mtgErr] liveWorld).broadcasts = 2 := by rfl
example :
    (vrun 5 [.unhandledRejection mtgErr, .graceTimerFires, .errorEvent mtgErr]
      liveWorld).broadcasts = 1 := by rfl

example : wrappedMethodRejection "send" (.obj (some "Meeting ended") "x") = .ok () := by rfl
example : wrappedMethodRejection "start" (.obj (some "Meeting ended") "x") =
    .error (.obj (some "Meeting ended") "x") := by rfl

/-! ## Auth fallback flow (src/components/AuthForm.tsx) -/

/-- A JavaScript error as the sign-in catch blocks inspect it:
name (AbortError detection), optional string message, optional
provider error code. -/
structure JsErr where
  name : String
  message : Option String
  code : Option String
deriving Repr, DecidableEq

/-- The record stored under the localStorage key "fallbackAuth" by
createFallbackAuth (AuthForm.tsx lines 27-45): the exact object literal
passed to JSON.stringify. -/
structure FallbackAuthRecord where
  email : String
  uid : String
  timestamp : Nat
  isAuthenticated : Bool
deriving Repr, DecidableEq

/-- createFallbackAuth (AuthForm.tsx lines 27-45): builds the record
stored in localStorage; timestamp is Date.now() at call time. -/
def createFallbackAuth (email uid : String) (now : Nat) : FallbackAuthRecord :=
  { email := email, uid := uid, timestamp := now, isAuthenticated := true }

/-- A JSON value appearing in the serialized fallback record. -/
inductive JVal where
  | s (v : String)
  | n (v : Nat)
  | b (v : Bool)
deriving Repr, DecidableEq

/-- The key/value pairs of the object literal JSON.stringify receives in
createFallbackAuth (AuthForm.tsx lines 33-38), in source order. -/
def fallbackAuthJson (r : FallbackAuthRecord) : List (String × JVal) :=
  [("email", .s r.email), ("uid", .s r.uid),
   ("timestamp", .n r.timestamp), ("isAuthenticated", .b r.isAuthenticated)]

/-- The observable effects of one sign-in error path: the fallback
record stored (if any), the error toasts and warning toasts raised, the
navigation to "/" and whether the error was re-thrown out of the catch. -/
structure SignInEffects where
  fallbackStored : Option FallbackAuthRecord
  toastErrors : List String
  toastWarnings : List String
  navigatedHome : Bool
  rethrown : Option JsErr
deriving Repr, DecidableEq

/-- `error.message?.includes("timeout")` (AuthForm.tsx line 239). -/
def msgHasTimeout (e : JsErr) : Bool :=
  match e.message with
  | some m => strContains m "timeout"
  | none => false

/-- The transient classification of the inner sign-in catch
(AuthForm.tsx lines 237-240): AbortError name or a message containing
"timeout". -/
def isTransientSignInError (e : JsErr) : Bool :=
  e.name == "AbortError" || msgHasTimeout e

/-- `error.message || "Unknown error"` (JS: empty string is falsy). -/
def msgOrUnknown (e : JsErr) : String :=
  match e.message with
  | some m => if m == "" then "Unknown error" else m
  | none => "Unknown error"

/-- The inner sign-in catch block (AuthForm.tsx lines 232-271): the
transient check runs first and creates a fallback credential with uid
`fallback-` ++ Date.now(); otherwise the provider code is matched; the
network-request-failed branch both toasts and falls back; no branch
re-throws, so no rejection escapes the handler. -/
def signInCatch (email : String) (now : Nat) (e : JsErr) : SignInEffects :=
  if isTransientSignInError e then
    { fallbackStored := some (createFallbackAuth email ("fallback-" ++ toString now) now),
      toastErrors := [],
      toastWarnings := ["Using offline mode due to slow connection."],
      navigatedHome := true, rethrown := none }
  else if e.code == some "auth/user-not-found" then
    { fallbackStored := none,
      toastErrors := ["User not found. Please check your email or create an account."],
      toastWarnings := [], navigatedHome := false, rethrown := none }
  else if e.code == some "auth/wrong-password" then
    { fallbackStored := none,
      toastErrors := ["Incorrect password. Please try again."],
      toastWarnings := [], navigatedHome := false, rethrown := none }
  else if e.code == some "auth/invalid-credential" then
    { fallbackStored := none,
      toastErrors := ["Invalid credentials. Please check your email and password."],
      toastWarnings := [], navigatedHome := false, rethrown := none }
  else if e.code == some "auth/network-request-failed" then
    { fallbackStored := some (createFallbackAuth email ("fallback-" ++ toString now) now),
      toastErrors := ["Network error. Please check your connection and try again."],
      toastWarnings := ["Using offline mode."],
      navigatedHome := true, rethrown := none }
  else
    { fallbackStored := none,
      toastErrors := ["Sign-in error: " ++ msgOrUnknown e],
      toastWarnings := [], navigatedHome := false, rethrown := none }

/-- The global authentication timeout handler (AuthForm.tsx lines
180-192): when the server deadline elapses before the sign-in flow
settles, a fallback credential with uid `temp-` ++ Date.now() is created
and the user proceeds home. -/
def globalTimeoutFire (email : String) (now : Nat) : SignInEffects :=
  { fallbackStored := some (createFallbackAuth email ("temp-" ++ toString now) now),
    toastErrors := [],
    toastWarnings := ["Authentication taking longer than expected. Using offline mode."],
    navigatedHome := true, rethrown := none }

/-- The outer catch block (AuthForm.tsx lines 273-301): classifies
provider codes including auth/email-already-in-use; it never creates a
fallback credential and never re-throws. -/
def outerCatch (e : JsErr) : SignInEffects :=
  if e.code == some "auth/user-not-found" then
    { fallbackStored := none,
      toastErrors := ["User not found. Please check your email or create an account."],
      toastWarnings := [], navigatedHome := false, rethrown := none }
  else if e.code == some "auth/wrong-password" then
    { fallbackStored := none,
      toastErrors := ["Incorrect password. Please try again."],
      toastWarnings := [], navigatedHome := false, rethrown := none }
  else if e.code == some "auth/invalid-credential" then
    { fallbackStored := none,
      toastErrors := ["Invalid credentials. Please check your email and password."],
      toastWarnings := [], navigatedHome := false, rethrown := none }
  else if e.code == some "auth/email-already-in-use" then
    { fallbackStored := none,
      toastErrors := ["Email already in use. Please sign in instead."],
      toastWarnings := [], navigatedHome := false, rethrown := none }
  else if e.code == some "auth/network-request-failed" then
    { fallbackStored := none,
      toastErrors := ["Network error. Please check your connection and try again."],
      toastWarnings := [], navigatedHome := false, rethrown := none }
  else
    { fallbackStored := none,
      toastErrors := ["There was an error: " ++ msgOrUnknown e],
      toastWarnings := [], navigatedHome := false, rethrown := none }

example :
    (signInCatch "a@b.c" 7 ⟨"Error", some "Signing in timeout reached", none⟩).fallbackStored =
      some ⟨"a@b.c", "fallback-7", 7, true⟩ := by rfl
example :
    (signInCatch "a@b.c" 7 ⟨"FirebaseError", some "bad", some "auth/wrong-password"⟩).fallbackStored
      = none := by rfl

/-! ## Vapi singleton construction (src/lib/vapi.sdk.ts lines 193-232) -/

/-- The module-level state the initialiser reads and writes:
window.__VAPI_INSTANCE__ (None when absent) plus a counter supplying
fresh identities for wrapped instances; createdIds records every wrapped
instance ever constructed, newest first. -/
structure VapiInitState where
  handle : Option Nat
  nextId : Nat
  createdIds : List Nat
deriving Repr, DecidableEq

/-- The value a call site receives: a wrapped instance (identified by
its identity token) or the mock stand-in, which is never stored in the
global handle. -/
inductive VapiHandle where
  | wrapped (id : Nat)
  | mockV
deriving Repr, DecidableEq

/-- createNewVapiInstance (vapi.sdk.ts lines 196-210): constructs and
wraps a fresh instance and synchronously stores it in
window.__VAPI_INSTANCE__; if construction throws, the mock is returned
and the handle left untouched. -/
def createNewVapiInstance (ctorFails : Bool) (s : VapiInitState) :
    VapiInitState × VapiHandle :=
  if ctorFails then (s, .mockV)
  else
    ({ handle := some s.nextId, nextId := s.nextId + 1,
       createdIds := s.nextId :: s.createdIds }, .wrapped s.nextId)

/-- The module initialisation path (vapi.sdk.ts lines 213-232): check
window.__VAPI_INSTANCE__ and either reuse it (its .on member is a
function for every wrapped instance, so the validity probe passes) or
construct-and-store synchronously, all within one synchronous step. -/
def moduleInit (ctorFails : Bool) (s : VapiInitState) :
    VapiInitState × VapiHandle :=
  match s.handle with
  | some i => (s, .wrapped i)
  | none => createNewVapiInstance ctorFails s

example :
    (moduleInit false ((moduleInit false ⟨none, 0, []⟩).1)).2 = .wrapped 0 := by rfl

/-! ## Timeout races: the wrapped start method (vapi.sdk.ts lines
44-66), Agent's startCallWithTimeout (Agent.tsx lines 172-201) and the
AuthForm sign-up race (AuthForm.tsx lines 113-134 with the finally
block at lines 297-301) -/

/-- The timeout error constructed at vapi.sdk.ts lines 49-51. -/
def startTimeoutErr : ErrVal :=
  .obj (some "Vapi start method timed out after 10 seconds")
       "Error: Vapi start method timed out after 10 seconds"

/-- The timeout error constructed at Agent.tsx lines 175-177. -/
def callInitTimeoutErr : ErrVal :=
  .obj (some "Call initialization timed out")
       "Error: Call initialization timed out"

/-- The timeout error constructed at AuthForm.tsx line 123. -/
def authTimedOutErr : ErrVal :=
  .obj (some "Authentication timed out")
       "Error: Authentication timed out"

/-- State of a Promise.race between an underlying operation promise and
a deadline timer: the first settlement (if any), whether the timer has
fired and whether it was ever cancelled with clearTimeout. -/
structure RaceState where
  settled : Option (Except ErrVal Unit)
  timerFired : Bool
  timerCleared : Bool
deriving Repr, DecidableEq

/-- The initial race state right after Promise.race is set up. -/
def raceStart : RaceState :=
  { settled := none, timerFired := false, timerCleared := false }

/-- An event settling one branch of the race. -/
inductive REvent where
  | opSettles (r : Except ErrVal Unit)
  | timerFires
deriving Repr, DecidableEq

/-- Promise.race semantics, parametrized by the timeout error te the
site's timer rejects with: the first branch to settle fixes the race
outcome; a timer that was cleared with clearTimeout never fires; an
uncleared timer still fires after the operation wins, merely failing to
change the already-settled race. -/
def raceEvent (te : ErrVal) : REvent → RaceState → RaceState
  | .opSettles r, s =>
    if s.settled.isSome then s else { s with settled := some r }
  | .timerFires, s =>
    if s.timerCleared then s
    else { s with timerFired := true,
                  settled := match s.settled with
                             | some r => some r
                             | none => some (.error te) }

/-- Run race events in arrival order. -/
def raceRun (te : ErrVal) (evs : List REvent) (s : RaceState) : RaceState :=
  evs.foldl (fun acc e => raceEvent te e acc) s

/-- `timeoutIds.forEach((id) => clearTimeout(id))` — the AuthForm
finally block (lines 297-301) and the success-path clearTimeout calls
(lines 218-219): the race's pending timer is cancelled. Neither the
wrapped start race nor Agent's race ever performs this. -/
def clearAllTimeouts (s : RaceState) : RaceState :=
  { s with timerCleared := true }

/-- What the caller of the wrapped start() observes after the race
settles, together with the cleanup performed by the catch at lines
55-66: on any settled failure, target.stop() is attempted once inside
try/catch (its own failure only logged) and the original error is
re-thrown; on success nothing further happens. -/
structure StartOutcome where
  result : Option (Except ErrVal Unit)
  stopAttempts : Nat
  cleanupErrorsLogged : Nat
  cleanupErrorPropagated : Bool
deriving Repr, DecidableEq

/-- The catch attached to the race (vapi.sdk.ts lines 55-66), applied to
the race's final state; stopThrows says whether target.stop() throws
during cleanup — such a throw is caught and logged (lines 61-63), never
re-raised, and the original error is re-thrown either way. -/
def wrapperStartFinish (stopThrows : Bool) (s : RaceState) : StartOutcome :=
  match s.settled with
  | none =>
    { result := none, stopAttempts := 0, cleanupErrorsLogged := 0,
      cleanupErrorPropagated := false }
  | some (.ok u) =>
    { result := some (.ok u), stopAttempts := 0, cleanupErrorsLogged := 0,
      cleanupErrorPropagated := false }
  | some (.error e) =>
    { result := some (.error e), stopAttempts := 1,
      cleanupErrorsLogged := if stopThrows then 1 else 0,
      cleanupErrorPropagated := false }

/-- What startCallWithTimeout returns to handleCall once its race has
settled, with the cleanup it performs. -/
structure AgentStartOutcome where
  returned : Option Bool
  stopAttempts : Nat
deriving Repr, DecidableEq

/-- The catch wrapping Agent's race (Agent.tsx lines 181-200): a settled
success returns true, any settled failure — the 5-second timer's win
included — is caught, logged and converted to false; no cleanup stop()
is invoked anywhere in the function. -/
def startCallWithTimeoutFinish (s : RaceState) : AgentStartOutcome :=
  match s.settled with
  | none => { returned := none, stopAttempts := 0 }
  | some (.ok _) => { returned := some true, stopAttempts := 0 }
  | some (.error _) => { returned := some false, stopAttempts := 0 }

/-! ## Configuration fallbacks: mock stand-ins and admin initialisers -/

/-- The operation surface of the voice dependency consumed by the app. -/
inductive VapiOpName where
  | onOp | offOp | startOp | stopOp | setDebugOp | setTimeoutOp
deriving Repr, DecidableEq

/-- A successfully completed JS operation: a plain (undefined) return or
a resolved promise. -/
inductive JsResult where
  | unitRet
  | promiseResolved
deriving Repr, DecidableEq

/-- createMockVapi (vapi.sdk.ts lines 25-32): every method is a no-op;
start returns Promise.resolve(), the rest return undefined; none throws. -/
def createMockVapi : VapiOpName → Except JsErr JsResult
  | .startOp => .ok .promiseResolved
  | _ => .ok .unitRet

/-- The configuration environment of the Firebase admin initialisers. -/
structure AdminEnv where
  projectId : Option String
  clientEmail : Option String
  privateKey : Option String
deriving Repr, DecidableEq

/-- JS truthiness of an environment variable (absent or empty → falsy). -/
def envTruthy : Option String → Bool
  | none => false
  | some s => s ≠ ""

/-- `!!(FIREBASE_PROJECT_ID && FIREBASE_CLIENT_EMAIL &&
FIREBASE_PRIVATE_KEY)` (unnamed admin module lines 34-36 and the guard
of firebase/admin.ts lines 6-8). -/
def hasCredentials (env : AdminEnv) : Bool :=
  envTruthy env.projectId && envTruthy env.clientEmail && envTruthy env.privateKey

/-- initializeFirebaseAdmin (src/firebase/admin.ts lines 5-28): missing
environment variables throw "Missing Firebase environment variables";
a failing cert/initializeApp throws "Failed to initialize Firebase
Admin"; otherwise the app is initialised when none exists yet. -/
def initializeFirebaseAdmin (env : AdminEnv) (apps : Nat) (initFails : Bool) :
    Except String (Option Unit) :=
  if ¬ hasCredentials env then .error "Missing Firebase environment variables"
  else if initFails then .error "Failed to initialize Firebase Admin"
  else if apps == 0 then .ok (some ()) else .ok none

/-- Which implementation backs an admin service handle. -/
inductive AdminSvc where
  | real
  | mockSvc
deriving Repr, DecidableEq

/-- The value exported by the unnamed admin module. -/
structure AdminServices where
  authSvc : AdminSvc
  dbSvc : AdminSvc
  usingMock : Bool
deriving Repr, DecidableEq

/-- initFirebaseAdmin (unnamed admin module lines 28-105): with no app
yet and missing credentials (or a throwing credentialed init) the
exports become MockAuth/MockFirestore with usingMock true; otherwise the
real services are fetched, themselves guarded by a mock fallback. -/
def initFirebaseAdmin (apps : Nat) (env : AdminEnv) (initFails getSvcFails : Bool) :
    AdminServices :=
  if apps == 0 then
    if ¬ hasCredentials env then ⟨.mockSvc, .mockSvc, true⟩
    else if initFails then ⟨.mockSvc, .mockSvc, true⟩
    else if getSvcFails then ⟨.mockSvc, .mockSvc, true⟩
    else ⟨.real, .real, false⟩
  else if getSvcFails then ⟨.mockSvc, .mockSvc, true⟩
  else ⟨.real, .real, false⟩

/-- The methods of the MockAuth stand-in (unnamed admin module lines
6-12); all are async and resolve. -/
inductive MockAuthOp where
  | getUserByEmail | verifyIdToken | createCustomToken
  | createSessionCookie | verifySessionCookie
deriving Repr, DecidableEq

/-- Every MockAuth method resolves successfully. -/
def mockAuthCall : MockAuthOp → Except JsErr JsResult
  | _ => .ok .promiseResolved

/-- The methods of the MockFirestore stand-in (unnamed admin module
lines 14-25): chainable builders return the mock itself, the async
operations resolve. -/
inductive MockFsOp where
  | collection | docOp | whereOp | orderByOp | limitOp
  | getOp | setOp | updateOp | deleteOp | addOp
deriving Repr, DecidableEq

/-- Every MockFirestore method completes without throwing: builders
return the object, async methods resolve. -/
def mockFirestoreCall : MockFsOp → Except JsErr JsResult
  | .getOp => .ok .promiseResolved
  | .setOp => .ok .promiseResolved
  | .updateOp => .ok .promiseResolved
  | .deleteOp => .ok .promiseResolved
  | .addOp => .ok .promiseResolved
  | _ => .ok .unitRet

/-! ## Rapid start attempts (src/components/Agent.tsx lines 203-246) -/

/-- The UI call status enum of Agent.tsx lines 13-19. -/
inductive CallStatus where
  | inactive | connecting | active | finished | errorStatus
deriving Repr, DecidableEq

/-- The state handleCall reads and writes, with counters for the
underlying start attempts it launches, rejections carrying an
"already starting" classification, and invocations that return without
doing anything. -/
structure AgentState where
  callStatus : CallStatus
  startAttempts : Nat
  alreadyStartingRejections : Nat
  silentlyIgnored : Nat
deriving Repr, DecidableEq

/-- The synchronous prefix of handleCall (Agent.tsx lines 203-226): it
unconditionally sets CONNECTING and launches a start attempt through
startCallWithTimeout; there is no in-flight guard, no check of the
current status, and no "already starting" rejection path anywhere in the
function. -/
def handleCall (s : AgentState) : AgentState :=
  { s with callStatus := .connecting, startAttempts := s.startAttempts + 1 }

/-! ## copyToClipboard (utils module lines 314-362) -/

/-- The environment copyToClipboard probes: whether window exists,
whether navigator.clipboard.writeText is available, and what the two
copying primitives do when invoked (writeText may reject, execCommand
may throw or return a boolean). -/
structure ClipEnv where
  windowDefined : Bool
  clipboardAvailable : Bool
  writeTextResult : Except JsErr Unit
  execCommandResult : Except JsErr Bool
deriving Repr, DecidableEq

/-- copyToClipboard (utils module lines 314-362): returns false outside
a browser; tries the Clipboard API, falling through to the execCommand
path on rejection; the execCommand path's errors are caught and yield
false; the outer catch maps any remaining error to false. `.ok b` models
a promise resolving with boolean b, `.error` a rejection. -/
def copyToClipboard (env : ClipEnv) (_text : String) : Except JsErr Bool :=
  if ¬ env.windowDefined then .ok false
  else
    let body : Except JsErr Bool :=
      match (if env.clipboardAvailable then
               match env.writeTextResult with
               | .ok _ => some true
               | .error _ => none
             else none) with
      | some b => .ok b
      | none =>
        match env.execCommandResult with
        | .ok b => .ok b
        | .error _ => .ok false
    match body with
    | .ok b => .ok b
    | .error _ => .ok false

/-! ## Helper lemmas -/

/-- hasSub decides contiguous containment. -/
theorem hasSub_iff_infix (pat s : List Char) :
    hasSub pat s = true ↔ pat <:+: s := by
  induction s with
  | nil =>
    simp only [hasSub, List.isEmpty_iff, List.infix_nil]
  | cons c t ih =>
    simp only [hasSub, Bool.or_eq_true, List.isPrefixOf_iff_prefix, ih,
      List.infix_cons_iff]

/-- strContains decides case-sensitive substring containment. -/
theorem strContains_iff (s pat : String) :
    strContains s pat = true ↔ pat.toList <:+: s.toList := by
  simp only [strContains, hasSub_iff_infix]

/-- Whether pat is a prefix of s (used to state which uid family a
fallback credential belongs to). -/
def strStarts (s pat : String) : Bool := pat.toList.isPrefixOf s.toList

/-- A string always starts with the literal prefix it was built from. -/
theorem strStarts_append (pat b : String) : strStarts (pat ++ b) pat = true := by
  simp only [strStarts, List.isPrefixOf_iff_prefix]
  exact List.prefix_append _ _

/-- The specification-side reading of the terminal-session classifier
("classify it as terminal-session-ended if its message contains a
recognized session-termination phrase, case-sensitive substring match
against a fixed set of known phrases"), stated over the fixed phrase
list with Mathlib's contiguous-sublist relation. -/
def specTerminal (e : ErrVal) : Prop :=
  ∃ m r, e = ErrVal.obj (some m) r ∧
    ∃ p ∈ meetingEndedPhrases, p.toList <:+: m.toList

/-- The classifier agrees with the specification-side reading. -/
theorem isMeetingEnded_iff_specTerminal (e : ErrVal) :
    isMeetingEnded e = true ↔ specTerminal e := by
  cases e with
  | nullE =>
    simp [isMeetingEnded, specTerminal]
  | obj m r =>
    cases m with
    | none => simp [isMeetingEnded, specTerminal]
    | some msg =>
      simp only [isMeetingEnded, Bool.or_eq_true, strContains_iff, specTerminal,
        meetingEndedPhrases]
      constructor
      · rintro (h | h)
        · exact ⟨msg, r, rfl, "Meeting has ended", by simp, h⟩
        · exact ⟨msg, r, rfl, "Meeting ended", by simp, h⟩
      · rintro ⟨m2, r2, heq, p, hp, hinf⟩
        cases heq
        simp only [List.mem_cons, List.mem_singleton, List.not_mem_nil, or_false] at hp
        rcases hp with rfl | rfl
        · exact Or.inl hinf
        · exact Or.inr hinf

/-! ## Claim C2 -/

/-- C2, counterexample: the claim says a rejected asynchronous operation
is resolved silently exactly when the message contains a termination
phrase, but the wrapped start method re-raises a rejection whose message
is exactly "Meeting has ended" (vapi.sdk.ts lines 44-66 re-throw every
start failure after cleanup, with no terminal-session check). -/
theorem c2_counterexample :
    isMeetingEnded mtgErr = true ∧
    wrappedMethodRejection "start" mtgErr = .error mtgErr := by
  exact ⟨by decide, rfl⟩

/-- C2, amended: the classifier marks an error terminal-session-ended
iff its message is a string containing "Meeting has ended" or
"Meeting ended" as a case-sensitive substring, and for every method
other than start a rejected promise is resolved silently exactly when
the classifier fires; the start method re-raises every rejection. -/
theorem c2_terminal_classification (method : String) (e : ErrVal)
    (h : method ≠ "start") :
    (isMeetingEnded e = true ↔ specTerminal e) ∧
    (wrappedMethodRejection method e = .ok () ↔ specTerminal e) ∧
    (∀ e2, wrappedMethodRejection "start" e2 = .error e2) := by
  have hb : (method == "start") = false := by
    simp only [beq_eq_false_iff_ne, ne_eq]
    exact h
  refine ⟨isMeetingEnded_iff_specTerminal e, ?_, ?_⟩
  · rw [← isMeetingEnded_iff_specTerminal e]
    simp only [wrappedMethodRejection, hb, Bool.false_eq_true, if_false]
    by_cases hc : isMeetingEnded e = true
    · simp [hc]
    · simp [hc]
  · intro e2
    simp [wrappedMethodRejection]

/-- C2 witness: the amended statement instantiated at a non-start method
and the meeting-ended error. -/
theorem c2_terminal_classification_witness :
    ("send" ≠ "start") ∧
    ((isMeetingEnded mtgErr = true ↔ specTerminal mtgErr) ∧
     (wrappedMethodRejection "send" mtgErr = .ok () ↔ specTerminal mtgErr) ∧
     (∀ e2, wrappedMethodRejection "start" e2 = .error e2)) :=
  ⟨by decide, c2_terminal_classification "send" mtgErr (by decide)⟩

/-! ## Claim C1 -/

/-- C1, counterexample: one logical termination observed by both the
unhandled-rejection listener and the global error listener, before the
1-second grace timer has cleared window.__VAPI_INSTANCE__, produces two
stop() calls and two vapi:meeting-ended broadcasts — not the exactly-one
of the claim. -/
theorem c1_counterexample :
    (vrun 5 [VObs.unhandledRejection mtgErr, VObs.errorEvent mtgErr] liveWorld).broadcasts = 2 ∧
    (vrun 5 [VObs.unhandledRejection mtgErr, VObs.errorEvent mtgErr] liveWorld).stopCalls = 2 := by
  exact ⟨rfl, rfl⟩

/-- C1, amended: each delivery of a recognized termination error to the
global handler while the instance is live triggers exactly one stop()
call and exactly one broadcast and schedules one grace-delay clearing of
the handle; deliveries after the handle is cleared have no effect; a
throwing stop() during cleanup is caught and logged (suppressing that
delivery's broadcast) and never re-raised; firing of the grace timer
performs the single invalidation; and a rejected call promise whose log
line carries no termination phrase leaves the guard state untouched
(the wrapper resolves it silently without invoking the handler). Within
the grace window multiple observation points thus each re-trigger stop
and broadcast. -/
theorem c1_per_observation_guard (fuel : Nat) (m r : String)
    (sc bc pc cl : Nat) (sf : Option ErrVal) (ce : ErrVal)
    (method : String) (e : ErrVal) (w : VapiWorld)
    (hm : phraseIn m = true)
    (hce : phraseIn ("Error during Daily.co cleanup: " ++ ce.render) = false)
    (hlog : phraseIn (wrapperLogLine method e) = false) :
    (dailyErrorHandler fuel (.obj (some m) r) ⟨true, none, sc, bc, pc, cl⟩ =
      (⟨true, none, sc + 1, bc + 1, pc + 1, cl⟩, true)) ∧
    (dailyErrorHandler fuel (.obj (some m) r) ⟨true, some ce, sc, bc, pc, cl⟩ =
      (⟨true, some ce, sc + 1, bc, pc, cl + 1⟩, true)) ∧
    (dailyErrorHandler fuel (.obj (some m) r) ⟨false, sf, sc, bc, pc, cl⟩ =
      (⟨false, sf, sc, bc, pc, cl⟩, true)) ∧
    (vstep fuel VObs.graceTimerFires ⟨true, sf, sc, bc, pc + 1, cl⟩ =
      ⟨false, sf, sc, bc, pc, cl⟩) ∧
    (vstep fuel (VObs.wrapperRejection method e) w = w) := by
  refine ⟨?_, ?_, ?_, ?_, ?_⟩
  · simp [dailyErrorHandler, hm]
  · cases fuel with
    | zero => simp [dailyErrorHandler, hm]
    | succ f => simp [dailyErrorHandler, hm, hce]
  · simp [dailyErrorHandler, hm]
  · simp [vstep]
  · simp [vstep, consoleErrorHook, hlog]

/-- C1 witness: the amended statement at one concrete configuration. -/
theorem c1_per_observation_guard_witness :
    (phraseIn "Meeting has ended" = true ∧
     phraseIn ("Error during Daily.co cleanup: " ++ (ErrVal.obj (some "boom") "boom").render)
       = false ∧
     phraseIn (wrapperLogLine "send" (ErrVal.obj (some "boom") "boom")) = false) ∧
    ((dailyErrorHandler 3 (.obj (some "Meeting has ended") "Error: Meeting has ended")
        ⟨true, none, 0, 0, 0, 0⟩ = (⟨true, none, 1, 1, 1, 0⟩, true)) ∧
     (dailyErrorHandler 3 (.obj (some "Meeting has ended") "Error: Meeting has ended")
        ⟨true, some (ErrVal.obj (some "boom") "boom"), 0, 0, 0, 0⟩ =
        (⟨true, some (ErrVal.obj (some "boom") "boom"), 1, 0, 0, 1⟩, true)) ∧
     (dailyErrorHandler 3 (.obj (some "Meeting has ended") "Error: Meeting has ended")
        ⟨false, none, 0, 0, 0, 0⟩ = (⟨false, none, 0, 0, 0, 0⟩, true)) ∧
     (vstep 3 VObs.graceTimerFires ⟨true, none, 0, 0, 0 + 1, 0⟩ = ⟨false, none, 0, 0, 0, 0⟩) ∧
     (vstep 3 (VObs.wrapperRejection "send" (ErrVal.obj (some "boom") "boom"))
        ⟨true, none, 0, 0, 0, 0⟩ = ⟨true, none, 0, 0, 0, 0⟩)) :=
  ⟨⟨by decide, by decide, by decide⟩,
   c1_per_observation_guard 3 "Meeting has ended" "Error: Meeting has ended" 0 0 0 0
     none (ErrVal.obj (some "boom") "boom") "send" (ErrVal.obj (some "boom") "boom")
     ⟨true, none, 0, 0, 0, 0⟩ (by decide) (by decide) (by decide)⟩

/-! ## Claim C3 -/

/-- C3: the guarded client handle is a singleton. The construction path
(vapi.sdk.ts lines 193-232) is one synchronous step that checks
window.__VAPI_INSTANCE__ and, when absent, constructs, wraps and stores
the instance before returning, so: a first access from the absent state
stores the fresh wrapped instance in the same step it is created; a
second access — racing in the same turn or later, whatever its own
constructor would do — observes the referentially identical instance and
changes nothing; any access while a handle is live reuses it; and a
failed construction returns the mock without storing it, leaving no live
instance behind. -/
theorem c3_singleton_construction (s s2 : VapiInitState) (b : Bool) (i : Nat)
    (hs : s.handle = none) (h2 : s2.handle = some i) :
    (moduleInit false s =
      ({ handle := some s.nextId, nextId := s.nextId + 1,
         createdIds := s.nextId :: s.createdIds }, .wrapped s.nextId)) ∧
    (moduleInit b (moduleInit false s).1 = ((moduleInit false s).1, .wrapped s.nextId)) ∧
    (moduleInit b s2 = (s2, .wrapped i)) ∧
    (moduleInit true s = (s, .mockV)) := by
  refine ⟨?_, ?_, ?_, ?_⟩
  · simp [moduleInit, createNewVapiInstance, hs]
  · simp [moduleInit, createNewVapiInstance, hs]
  · simp [moduleInit, h2]
  · simp [moduleInit, createNewVapiInstance, hs]

/-- C3 witness: the singleton statement at concrete states. -/
theorem c3_singleton_construction_witness :
    ((⟨none, 0, []⟩ : VapiInitState).handle = none ∧
     (⟨some 7, 8, [7]⟩ : VapiInitState).handle = some 7) ∧
    ((moduleInit false ⟨none, 0, []⟩ =
       ({ handle := some 0, nextId := 1, createdIds := [0] }, .wrapped 0)) ∧
     (moduleInit true (moduleInit false ⟨none, 0, []⟩).1 =
       ((moduleInit false ⟨none, 0, []⟩).1, .wrapped 0)) ∧
     (moduleInit true ⟨some 7, 8, [7]⟩ = (⟨some 7, 8, [7]⟩, .wrapped 7)) ∧
     (moduleInit true ⟨none, 0, []⟩ = (⟨none, 0, []⟩, .mockV))) :=
  ⟨⟨rfl, rfl⟩,
   c3_singleton_construction ⟨none, 0, []⟩ ⟨some 7, 8, [7]⟩ true 7 rfl rfl⟩

/-! ## Claim C4 -/

/-- C4: a sign-in attempt ending in a timeout (AbortError name or a
message containing "timeout"), in the network-unreachable provider code,
or in the server-deadline timer firing, synthesizes a fallback
credential stamped with the current time and a locally generated uid,
stores it, and navigates the caller home with nothing re-thrown
(AuthForm.tsx lines 180-192 and 232-271). -/
theorem c4_degraded_fallback (email : String) (now : Nat) (e : JsErr)
    (h : isTransientSignInError e = true ∨ e.code = some "auth/network-request-failed") :
    ((signInCatch email now e).fallbackStored =
       some (createFallbackAuth email ("fallback-" ++ toString now) now)) ∧
    (signInCatch email now e).navigatedHome = true ∧
    (signInCatch email now e).rethrown = none ∧
    ((globalTimeoutFire email now).fallbackStored =
       some (createFallbackAuth email ("temp-" ++ toString now) now)) ∧
    (globalTimeoutFire email now).navigatedHome = true ∧
    (globalTimeoutFire email now).rethrown = none := by
  by_cases ht : isTransientSignInError e = true
  · simp [signInCatch, ht, globalTimeoutFire]
  · rcases h with h | hcode
    · exact absurd h ht
    · simp [signInCatch, ht, hcode, globalTimeoutFire]

/-- C4 witness: the fallback statement at a concrete timed-out error. -/
theorem c4_degraded_fallback_witness :
    (isTransientSignInError ⟨"AbortError", none, none⟩ = true ∨
      JsErr.code ⟨"AbortError", none, none⟩ = some "auth/network-request-failed") ∧
    (((signInCatch "a@b.c" 7 ⟨"AbortError", none, none⟩).fallbackStored =
        some (createFallbackAuth "a@b.c" ("fallback-" ++ toString 7) 7)) ∧
     (signInCatch "a@b.c" 7 ⟨"AbortError", none, none⟩).navigatedHome = true ∧
     (signInCatch "a@b.c" 7 ⟨"AbortError", none, none⟩).rethrown = none ∧
     ((globalTimeoutFire "a@b.c" 7).fallbackStored =
        some (createFallbackAuth "a@b.c" ("temp-" ++ toString 7) 7)) ∧
     (globalTimeoutFire "a@b.c" 7).navigatedHome = true ∧
     (globalTimeoutFire "a@b.c" 7).rethrown = none) :=
  ⟨Or.inl (by decide),
   c4_degraded_fallback "a@b.c" 7 ⟨"AbortError", none, none⟩ (Or.inl (by decide))⟩

/-! ## Claim C5 -/

/-- C5, counterexample: the record createFallbackAuth serializes to
localStorage has exactly the keys email, uid, timestamp and
isAuthenticated — it carries no provenance key and no field whose value
is the string "degraded", so the claimed provenance flag does not exist
on the credential itself. -/
theorem c5_counterexample :
    ((fallbackAuthJson (createFallbackAuth "a@b.c" "fallback-1000" 1000)).map Prod.fst =
      ["email", "uid", "timestamp", "isAuthenticated"]) ∧
    ((fallbackAuthJson (createFallbackAuth "a@b.c" "fallback-1000" 1000)).lookup "provenance"
      = none) ∧
    ((fallbackAuthJson (createFallbackAuth "a@b.c" "fallback-1000" 1000)).all
      (fun kv => !(kv.2 == JVal.s "degraded")) = true) := by
  exact ⟨rfl, rfl, by decide⟩

/-- C5, amended: the fallback credential carries no explicit "degraded"
provenance string; its degraded provenance is encoded by where and how
it is written: it is only ever produced by createFallbackAuth, stored
under the dedicated key "fallbackAuth", stamped with the creation time
and given a locally generated uid prefixed "temp-" (server-deadline
path) or "fallback-" (catch paths), with isAuthenticated set to true;
the serialized record's keys are exactly email, uid, timestamp,
isAuthenticated; and no sign-in error path ever upgrades or rewrites a
stored record to a verified one — the outer catch stores nothing at all. -/
theorem c5_degraded_provenance (email : String) (now : Nat) (e : JsErr)
    (r rec : FallbackAuthRecord)
    (h : (signInCatch email now e).fallbackStored = some rec) :
    ((fallbackAuthJson r).map Prod.fst = ["email", "uid", "timestamp", "isAuthenticated"]) ∧
    ((fallbackAuthJson r).lookup "provenance" = none) ∧
    ((globalTimeoutFire email now).fallbackStored =
       some (createFallbackAuth email ("temp-" ++ toString now) now)) ∧
    (strStarts ("temp-" ++ toString now) "temp-" = true) ∧
    (rec = createFallbackAuth email ("fallback-" ++ toString now) now) ∧
    (strStarts rec.uid "fallback-" = true) ∧
    (rec.isAuthenticated = true) ∧
    (rec.timestamp = now) ∧
    (∀ e2, (outerCatch e2).fallbackStored = none) := by
  have hrec : rec = createFallbackAuth email ("fallback-" ++ toString now) now := by
    by_cases ht : isTransientSignInError e = true
    · simp [signInCatch, ht] at h
      exact h.symm
    · simp only [signInCatch, ht, Bool.false_eq_true, if_false] at h
      by_cases h1 : e.code == some "auth/user-not-found"
      · simp [h1] at h
      · by_cases h2 : e.code == some "auth/wrong-password"
        · simp [h1, h2] at h
        · by_cases h3 : e.code == some "auth/invalid-credential"
          · simp [h1, h2, h3] at h
          · by_cases h4 : e.code == some "auth/network-request-failed"
            · simp [h1, h2, h3, h4] at h
              exact h.symm
            · simp [h1, h2, h3, h4] at h
  refine ⟨rfl, rfl, rfl, ?_, hrec, ?_, ?_, ?_, ?_⟩
  · exact strStarts_append "temp-" (toString now)
  · rw [hrec]
    exact strStarts_append "fallback-" (toString now)
  · rw [hrec]; rfl
  · rw [hrec]; rfl
  · intro e2
    unfold outerCatch
    split
    · rfl
    split
    · rfl
    split
    · rfl
    split
    · rfl
    split
    · rfl
    rfl

/-- C5 witness: the provenance statement at a concrete abort error. -/
theorem c5_degraded_provenance_witness :
    ((signInCatch "a@b.c" 9 ⟨"AbortError", none, none⟩).fallbackStored =
       some (createFallbackAuth "a@b.c" ("fallback-" ++ toString 9) 9)) ∧
    (((fallbackAuthJson (createFallbackAuth "x" "y" 0)).map Prod.fst =
        ["email", "uid", "timestamp", "isAuthenticated"]) ∧
     ((fallbackAuthJson (createFallbackAuth "x" "y" 0)).lookup "provenance" = none) ∧
     ((globalTimeoutFire "a@b.c" 9).fallbackStored =
        some (createFallbackAuth "a@b.c" ("temp-" ++ toString 9) 9)) ∧
     (strStarts ("temp-" ++ toString 9) "temp-" = true) ∧
     (createFallbackAuth "a@b.c" ("fallback-" ++ toString 9) 9 =
        createFallbackAuth "a@b.c" ("fallback-" ++ toString 9) 9) ∧
     (strStarts (createFallbackAuth "a@b.c" ("fallback-" ++ toString 9) 9).uid "fallback-"
        = true) ∧
     ((createFallbackAuth "a@b.c" ("fallback-" ++ toString 9) 9).isAuthenticated = true) ∧
     ((createFallbackAuth "a@b.c" ("fallback-" ++ toString 9) 9).timestamp = 9) ∧
     (∀ e2, (outerCatch e2).fallbackStored = none)) :=
  ⟨by decide,
   c5_degraded_provenance "a@b.c" 9 ⟨"AbortError", none, none⟩
     (createFallbackAuth "x" "y" 0)
     (createFallbackAuth "a@b.c" ("fallback-" ++ toString 9) 9) (by decide)⟩

/-! ## Claim C6 -/

/-- C6, counterexample: when the underlying start() settles first in
the wrapped start race, the competing 10-second timer is not cancelled —
the setTimeout of vapi.sdk.ts lines 48-52 is never cleared, so the
timer still fires afterwards; only its firing cannot change the
already-settled race. The claim's "the competing timer is cancelled" is
false at this trace; and when Agent's 5-second timer wins its race, no
cleanup stop() is attempted, against the claim's timer-wins clause. -/
theorem c6_counterexample :
    (raceRun startTimeoutErr [REvent.opSettles (.ok ()), REvent.timerFires]
      raceStart).timerCleared = false ∧
    (raceRun startTimeoutErr [REvent.opSettles (.ok ()), REvent.timerFires]
      raceStart).timerFired = true ∧
    (wrapperStartFinish false
        (raceRun startTimeoutErr [REvent.opSettles (.ok ()), REvent.timerFires]
          raceStart)).result = some (.ok ()) ∧
    startCallWithTimeoutFinish
        (raceRun callInitTimeoutErr [REvent.timerFires] raceStart) =
      { returned := some false, stopAttempts := 0 } := by
  exact ⟨rfl, rfl, rfl, rfl⟩

/-- C6, amended, per race site. At each of the three timeout-raced
sites, whichever branch settles first fixes the outcome, and the losing
branch's later settlement cannot alter it. Cleanup and cancellation
differ per site. Wrapped start race (vapi.sdk.ts 44-66): a timer win
delivers the 10-second timeout failure to the caller with exactly one
best-effort cleanup stop(), whose own failure is logged and never
propagated; an operation win delivers the operation's own outcome
(success or failure, the latter with the same one-stop cleanup), and the
competing timer is abandoned rather than cancelled — it still fires, but
its firing does not change the settled outcome. Agent's 5-second
startCallWithTimeout race (Agent.tsx 172-201): a timer win is caught and
converted to a false return with no cleanup stop() at all, an operation
win returns true, and the timer is likewise never cleared. AuthForm
sign-up race (AuthForm.tsx 113-134, 297-301): a timer win rejects the
race with the "Authentication timed out" error delivered to the catch,
and this is the one site that cancels — after the finally block clears
the pushed timer ids, the competing timer can no longer fire at all. -/
theorem c6_timeout_race (e : ErrVal) (st : Bool) (r : Except ErrVal Unit) :
    (wrapperStartFinish st
        (raceRun startTimeoutErr [REvent.timerFires, REvent.opSettles r] raceStart) =
      { result := some (.error startTimeoutErr), stopAttempts := 1,
        cleanupErrorsLogged := if st then 1 else 0, cleanupErrorPropagated := false }) ∧
    ((raceRun startTimeoutErr [REvent.timerFires, REvent.opSettles r] raceStart).timerFired
      = true) ∧
    (wrapperStartFinish st
        (raceRun startTimeoutErr [REvent.opSettles (.ok ()), REvent.timerFires] raceStart) =
      { result := some (.ok ()), stopAttempts := 0,
        cleanupErrorsLogged := 0, cleanupErrorPropagated := false }) ∧
    (wrapperStartFinish st
        (raceRun startTimeoutErr [REvent.opSettles (.error e), REvent.timerFires] raceStart) =
      { result := some (.error e), stopAttempts := 1,
        cleanupErrorsLogged := if st then 1 else 0, cleanupErrorPropagated := false }) ∧
    ((raceRun startTimeoutErr [REvent.opSettles r, REvent.timerFires] raceStart).timerCleared
      = false) ∧
    (startCallWithTimeoutFinish
        (raceRun callInitTimeoutErr [REvent.timerFires, REvent.opSettles r] raceStart) =
      { returned := some false, stopAttempts := 0 }) ∧
    (startCallWithTimeoutFinish
        (raceRun callInitTimeoutErr [REvent.opSettles (.ok ()), REvent.timerFires] raceStart)
      = { returned := some true, stopAttempts := 0 }) ∧
    ((raceRun callInitTimeoutErr [REvent.opSettles r, REvent.timerFires]
        raceStart).timerCleared = false) ∧
    ((raceEvent authTimedOutErr REvent.timerFires raceStart).settled =
      some (.error authTimedOutErr)) ∧
    (raceEvent authTimedOutErr REvent.timerFires
        (clearAllTimeouts (raceEvent authTimedOutErr (REvent.opSettles r) raceStart)) =
      clearAllTimeouts (raceEvent authTimedOutErr (REvent.opSettles r) raceStart)) ∧
    ((clearAllTimeouts (raceEvent authTimedOutErr (REvent.opSettles r) raceStart)).settled
      = some r) ∧
    ((clearAllTimeouts (raceEvent authTimedOutErr (REvent.opSettles r) raceStart)).timerFired
      = false) := by
  refine ⟨rfl, rfl, rfl, rfl, rfl, rfl, rfl, rfl, rfl, ?_, rfl, rfl⟩
  simp [raceEvent, clearAllTimeouts, raceStart]

/-! ## Claim C7 -/

/-- C7, counterexample: initializeFirebaseAdmin in src/firebase/admin.ts
(lines 5-10) does not substitute a no-op stand-in when its required
configuration tokens are missing — it throws "Missing Firebase
environment variables", so this guarded dependency violates the
for-every-dependency claim. -/
theorem c7_counterexample :
    initializeFirebaseAdmin ⟨none, none, none⟩ 0 false =
      .error "Missing Firebase environment variables" := by
  rfl

/-- C7, amended: the voice dependency and the unnamed admin module do
replace the dependency by a no-op stand-in on missing configuration, and
every operation on those stand-ins completes without a thrown error
(mock vapi methods return undefined or a resolved promise; MockAuth and
MockFirestore methods all resolve or return the builder); but
src/firebase/admin.ts instead throws "Missing Firebase environment
variables" when its tokens are missing. -/
theorem c7_mock_standins (o : VapiOpName) (a : MockAuthOp) (f2 : MockFsOp)
    (env env2 : AdminEnv) (ifl gfl ifl2 : Bool) (apps : Nat)
    (h1 : hasCredentials env = false) (h2 : hasCredentials env2 = false) :
    ((createMockVapi o).isOk = true) ∧
    (createMockVapi .startOp = .ok .promiseResolved) ∧
    (initFirebaseAdmin 0 env ifl gfl = ⟨.mockSvc, .mockSvc, true⟩) ∧
    ((mockAuthCall a).isOk = true) ∧
    ((mockFirestoreCall f2).isOk = true) ∧
    (initializeFirebaseAdmin env2 apps ifl2 =
      .error "Missing Firebase environment variables") := by
  refine ⟨?_, rfl, ?_, ?_, ?_, ?_⟩
  · cases o <;> rfl
  · simp [initFirebaseAdmin, h1]
  · cases a <;> rfl
  · cases f2 <;> rfl
  · simp [initializeFirebaseAdmin, h2]

/-- C7 witness: the stand-in statement with every token absent. -/
theorem c7_mock_standins_witness :
    (hasCredentials ⟨none, none, none⟩ = false ∧
     hasCredentials ⟨some "", some "e", some "k"⟩ = false) ∧
    (((createMockVapi .stopOp).isOk = true) ∧
     (createMockVapi .startOp = .ok .promiseResolved) ∧
     (initFirebaseAdmin 0 ⟨none, none, none⟩ false false = ⟨.mockSvc, .mockSvc, true⟩) ∧
     ((mockAuthCall .verifyIdToken).isOk = true) ∧
     ((mockFirestoreCall .getOp).isOk = true) ∧
     (initializeFirebaseAdmin ⟨some "", some "e", some "k"⟩ 0 false =
       .error "Missing Firebase environment variables")) :=
  ⟨⟨by decide, by decide⟩,
   c7_mock_standins .stopOp .verifyIdToken .getOp ⟨none, none, none⟩
     ⟨some "", some "e", some "k"⟩ false false false 0 (by decide) (by decide)⟩

/-! ## Claim C8 -/

/-- C8, counterexample: the transient classification runs before the
provider-code classification (AuthForm.tsx lines 237-246), so an error
carrying the non-fallback code auth/wrong-password but the name
AbortError is masked by the degraded-mode fallback: a fallback
credential is created and no wrong-password message is raised. -/
theorem c8_counterexample :
    ((signInCatch "u@v.w" 3 ⟨"AbortError", some "x", some "auth/wrong-password"⟩).fallbackStored
      = some (createFallbackAuth "u@v.w" "fallback-3" 3)) ∧
    ((signInCatch "u@v.w" 3 ⟨"AbortError", some "x", some "auth/wrong-password"⟩).toastErrors
      = []) := by
  exact ⟨rfl, rfl⟩

/-- C8, amended: provided the error is not classified transient first
(name AbortError or a message containing "timeout" takes precedence),
each non-fallback provider code is surfaced as its specific user-facing
message with no fallback credential created: user-not-found,
wrong-password and invalid-credential in the sign-in catch, and
email-already-in-use in the outer catch, which never creates a fallback
credential for any error. -/
theorem c8_provider_errors_surfaced (email : String) (now : Nat)
    (e1 e2 e3 e4 e5 : JsErr)
    (h1t : isTransientSignInError e1 = false)
    (h1c : e1.code = some "auth/user-not-found")
    (h2t : isTransientSignInError e2 = false)
    (h2c : e2.code = some "auth/wrong-password")
    (h3t : isTransientSignInError e3 = false)
    (h3c : e3.code = some "auth/invalid-credential")
    (h4c : e4.code = some "auth/email-already-in-use") :
    (signInCatch email now e1 =
      { fallbackStored := none,
        toastErrors := ["User not found. Please check your email or create an account."],
        toastWarnings := [], navigatedHome := false, rethrown := none }) ∧
    (signInCatch email now e2 =
      { fallbackStored := none,
        toastErrors := ["Incorrect password. Please try again."],
        toastWarnings := [], navigatedHome := false, rethrown := none }) ∧
    (signInCatch email now e3 =
      { fallbackStored := none,
        toastErrors := ["Invalid credentials. Please check your email and password."],
        toastWarnings := [], navigatedHome := false, rethrown := none }) ∧
    (outerCatch e4 =
      { fallbackStored := none,
        toastErrors := ["Email already in use. Please sign in instead."],
        toastWarnings := [], navigatedHome := false, rethrown := none }) ∧
    ((outerCatch e5).fallbackStored = none) := by
  refine ⟨?_, ?_, ?_, ?_, ?_⟩
  · simp [signInCatch, h1t, h1c]
  · simp [signInCatch, h2t, h2c]
  · simp [signInCatch, h3t, h3c]
  · simp [outerCatch, h4c]
  · unfold outerCatch
    split
    · rfl
    split
    · rfl
    split
    · rfl
    split
    · rfl
    split
    · rfl
    rfl

/-- C8 witness: the amended statement at concrete provider errors. -/
theorem c8_provider_errors_surfaced_witness :
    (isTransientSignInError ⟨"FirebaseError", some "a", some "auth/user-not-found"⟩ = false ∧
     isTransientSignInError ⟨"FirebaseError", some "b", some "auth/wrong-password"⟩ = false ∧
     isTransientSignInError ⟨"FirebaseError", some "c", some "auth/invalid-credential"⟩ = false) ∧
    ((signInCatch "u@v.w" 3 ⟨"FirebaseError", some "a", some "auth/user-not-found"⟩ =
       { fallbackStored := none,
         toastErrors := ["User not found. Please check your email or create an account."],
         toastWarnings := [], navigatedHome := false, rethrown := none }) ∧
     (signInCatch "u@v.w" 3 ⟨"FirebaseError", some "b", some "auth/wrong-password"⟩ =
       { fallbackStored := none,
         toastErrors := ["Incorrect password. Please try again."],
         toastWarnings := [], navigatedHome := false, rethrown := none }) ∧
     (signInCatch "u@v.w" 3 ⟨"FirebaseError", some "c", some "auth/invalid-credential"⟩ =
       { fallbackStored := none,
         toastErrors := ["Invalid credentials. Please check your email and password."],
         toastWarnings := [], navigatedHome := false, rethrown := none }) ∧
     (outerCatch ⟨"FirebaseError", some "d", some "auth/email-already-in-use"⟩ =
       { fallbackStored := none,
         toastErrors := ["Email already in use. Please sign in instead."],
         toastWarnings := [], navigatedHome := false, rethrown := none }) ∧
     ((outerCatch ⟨"E", none, none⟩).fallbackStored = none)) :=
  ⟨⟨by decide, by decide, by decide⟩,
   c8_provider_errors_surfaced "u@v.w" 3
     ⟨"FirebaseError", some "a", some "auth/user-not-found"⟩
     ⟨"FirebaseError", some "b", some "auth/wrong-password"⟩
     ⟨"FirebaseError", some "c", some "auth/invalid-credential"⟩
     ⟨"FirebaseError", some "d", some "auth/email-already-in-use"⟩
     ⟨"E", none, none⟩
     (by decide) (by decide) (by decide) (by decide) (by decide) (by decide) (by decide)⟩

/-! ## Claim C9 -/

/-- C9, counterexample: two rapid handleCall invocations before the
first completes (Agent.tsx lines 203-246): the second is not rejected
with an "already starting" classification and does not reuse the
in-flight attempt — it launches its own second start attempt, since
handleCall has no in-flight guard at all. -/
theorem c9_counterexample :
    handleCall (handleCall ⟨.inactive, 0, 0, 0⟩) =
      ⟨.connecting, 2, 0, 0⟩ := by
  rfl

/-- C9, amended: a second rapid call to start a voice session is never
silently ignored, but neither of the claim's two permitted behaviours
occurs: every handleCall invocation unconditionally moves the status to
CONNECTING and launches one fresh underlying start attempt, with no
"already starting" rejection and no reuse of the in-flight attempt. -/
theorem c9_rapid_start_attempts (s : AgentState) :
    (handleCall s = { s with callStatus := .connecting,
                             startAttempts := s.startAttempts + 1 }) ∧
    ((handleCall s).startAttempts = s.startAttempts + 1) ∧
    ((handleCall s).alreadyStartingRejections = s.alreadyStartingRejections) ∧
    ((handleCall s).silentlyIgnored = s.silentlyIgnored) := by
  exact ⟨rfl, rfl, rfl, rfl⟩

/-! ## Claim C10 -/

/-- C10: copyToClipboard always settles with a boolean and never
rejects: outside a browser it resolves false; a Clipboard API rejection
is caught and control falls through to the execCommand path (here shown
succeeding, resolving true); when both primitives fail the result is
false; and in every environment the result is some resolved boolean,
never a rejection. -/
theorem c10_clipboard_never_rejects (env : ClipEnv) (text : String) :
    (∃ b, copyToClipboard env text = .ok b) ∧
    (copyToClipboard { env with windowDefined := false } text = .ok false) ∧
    (∀ e1 e2 avail, copyToClipboard ⟨true, avail, .error e1, .error e2⟩ text = .ok false) ∧
    (∀ e1, copyToClipboard ⟨true, true, .error e1, .ok true⟩ text = .ok true) := by
  refine ⟨?_, ?_, ?_, ?_⟩
  · unfold copyToClipboard
    by_cases hw : env.windowDefined
    · simp only [hw, not_true, if_false]
      by_cases hc : env.clipboardAvailable
      · simp only [hc, if_true]
        cases hwt : env.writeTextResult with
        | ok u => exact ⟨true, rfl⟩
        | error er =>
          simp only
          cases hex : env.execCommandResult with
          | ok b => exact ⟨b, rfl⟩
          | error e2 => exact ⟨false, rfl⟩
      · simp only [hc, if_false]
        cases hex : env.execCommandResult with
        | ok b => exact ⟨b, rfl⟩
        | error e2 => exact ⟨false, rfl⟩
    · exact ⟨false, by simp [hw]⟩
  · simp [copyToClipboard]
  · intro e1 e2 avail
    cases avail <;> rfl
  · intro e1
    rfl
